import Mathlib

set_option maxRecDepth 100000

/-!
Verification of the excelize chart / data-validation subsystem.

The Go sources are embedded shallowly: structs become Lean structures,
pointer-typed fields (`*string`, `*bool`) become `Option`, in-place
mutating methods become functions from the receiver to the updated
receiver, `error` results become an `Option String` (the message) or an
`Except` value, and Go's `len` on strings (a byte count) becomes
`String.utf8ByteSize`.
-/

namespace Excelize

/-! ### Data validation (dataValidation.go excerpt) -/

/-- Go `DataValidationType` is an `int`; the enumeration constants below
follow the `iota` block of the source. -/
abbrev DataValidationType := Int

def typeNone : DataValidationType := 1
def DataValidationTypeCustom : DataValidationType := 2
def DataValidationTypeDate : DataValidationType := 3
def DataValidationTypeDecimal : DataValidationType := 4
def typeList : DataValidationType := 5
def DataValidationTypeTextLeng : DataValidationType := 6
def DataValidationTypeTime : DataValidationType := 7
def DataValidationTypeWhole : DataValidationType := 8

/-- `dataValidationFormulaStrLen`: 255 characters + 2 quotes. -/
def dataValidationFormulaStrLen : Nat := 257

/-- `dataValidationFormulaStrLenErr` message. -/
def dataValidationFormulaStrLenErr : String := "data validation must be 0-255 characters"

/-- Go `DataValidationErrorStyle` is an `int`. -/
abbrev DataValidationErrorStyle := Int

def DataValidationErrorStyleStop : DataValidationErrorStyle := 1
def DataValidationErrorStyleWarning : DataValidationErrorStyle := 2
def DataValidationErrorStyleInformation : DataValidationErrorStyle := 3

def styleStop : String := "stop"
def styleWarning : String := "warning"
def styleInformation : String := "information"

/-- Go `DataValidationOperator` is an `int`. -/
abbrev DataValidationOperator := Int

def DataValidationOperatorBetween : DataValidationOperator := 1
def DataValidationOperatorEqual : DataValidationOperator := 2
def DataValidationOperatorGreaterThan : DataValidationOperator := 3
def DataValidationOperatorGreaterThanOrEqual : DataValidationOperator := 4
def DataValidationOperatorLessThan : DataValidationOperator := 5
def DataValidationOperatorLessThanOrEqual : DataValidationOperator := 6
def DataValidationOperatorNotBetween : DataValidationOperator := 7
def DataValidationOperatorNotEqual : DataValidationOperator := 8

/-- Modelled from the spec: the `DataValidation` struct itself is declared
outside the excerpt (xmlWorksheet.go); its fields and their types are those
the excerpt's methods read and write (§3 "Data validation rule"):
allow-blank flag, two formula strings, type and operator keywords, target
range reference, optional error alert and input prompt.  Go pointer fields
are `Option`, plain strings start at `""` (Go zero value). -/
structure DataValidation where
  AllowBlank : Bool
  Error : Option String
  ErrorStyle : Option String
  ErrorTitle : Option String
  Operator : String
  Prompt : Option String
  PromptTitle : Option String
  ShowErrorMessage : Bool
  ShowInputMessage : Bool
  Sqref : String
  Formula1 : String
  Formula2 : String
  «Type» : String
deriving DecidableEq, Repr

/-- `NewDataValidation` returns the data validation struct: all other
fields are at their Go zero values. -/
def NewDataValidation (allowBlank : Bool) : DataValidation :=
  { AllowBlank := allowBlank
    Error := none
    ErrorStyle := none
    ErrorTitle := none
    Operator := ""
    Prompt := none
    PromptTitle := none
    ShowErrorMessage := false
    ShowInputMessage := false
    Sqref := ""
    Formula1 := ""
    Formula2 := ""
    «Type» := "" }

/-- `convDataValidationType`: Go map lookup, absent keys give `""`. -/
def convDataValidationType (t : DataValidationType) : String :=
  if t = typeNone then "none"
  else if t = DataValidationTypeCustom then "custom"
  else if t = DataValidationTypeDate then "date"
  else if t = DataValidationTypeDecimal then "decimal"
  else if t = typeList then "list"
  else if t = DataValidationTypeTextLeng then "textLength"
  else if t = DataValidationTypeTime then "time"
  else if t = DataValidationTypeWhole then "whole"
  else ""

/-- `convDataValidationOperatior`: Go map lookup, absent keys give `""`. -/
def convDataValidationOperatior (o : DataValidationOperator) : String :=
  if o = DataValidationOperatorBetween then "between"
  else if o = DataValidationOperatorEqual then "equal"
  else if o = DataValidationOperatorGreaterThan then "greaterThan"
  else if o = DataValidationOperatorGreaterThanOrEqual then "greaterThanOrEqual"
  else if o = DataValidationOperatorLessThan then "lessThan"
  else if o = DataValidationOperatorLessThanOrEqual then "lessThanOrEqual"
  else if o = DataValidationOperatorNotBetween then "notBetween"
  else if o = DataValidationOperatorNotEqual then "notEqual"
  else ""

/-- `SetError` sets the error notice.  The local `strStyle` starts at
`styleStop` and the switch overrides it for the three known styles. -/
def DataValidation.SetError (dd : DataValidation) (style : DataValidationErrorStyle)
    (title msg : String) : DataValidation :=
  let strStyle :=
    if style = DataValidationErrorStyleStop then styleStop
    else if style = DataValidationErrorStyleWarning then styleWarning
    else if style = DataValidationErrorStyleInformation then styleInformation
    else styleStop
  { dd with
    Error := some msg
    ErrorTitle := some title
    ShowErrorMessage := true
    ErrorStyle := some strStyle }

/-- `SetInput` sets the prompt notice. -/
def DataValidation.SetInput (dd : DataValidation) (title msg : String) : DataValidation :=
  { dd with
    ShowInputMessage := true
    PromptTitle := some title
    Prompt := some msg }

/-- `SetDropList`: `Formula1` becomes the double-quoted comma join of the
keys; the Go method's `error` result is always `nil` (`none` here). -/
def DataValidation.SetDropList (dd : DataValidation) (keys : List String) :
    DataValidation × Option String :=
  ({ dd with
     Formula1 := "\"" ++ String.intercalate "," keys ++ "\""
     «Type» := convDataValidationType typeList }, none)

/-- `SetRange`: formats the two integer bounds (`fmt.Sprintf("%d", ·)` is
decimal `toString`), errors when a *prior* formula is longer than
`dataValidationFormulaStrLen` bytes, and otherwise assigns the four
fields.  The updated receiver is returned alongside the error. -/
def DataValidation.SetRange (dd : DataValidation) (f1 f2 : Int)
    (t : DataValidationType) (o : DataValidationOperator) :
    DataValidation × Option String :=
  let formula1 := toString f1
  let formula2 := toString f2
  if dataValidationFormulaStrLen < dd.Formula1.utf8ByteSize ∨
      dataValidationFormulaStrLen < dd.Formula2.utf8ByteSize then
    (dd, some dataValidationFormulaStrLenErr)
  else
    ({ dd with
       Formula1 := formula1
       Formula2 := formula2
       «Type» := convDataValidationType t
       Operator := convDataValidationOperatior o }, none)

/-- `SetSqref`: sets the reference when empty, otherwise appends it
space-separated (`fmt.Sprintf("%s %s", dd.Sqref, sqref)`). -/
def DataValidation.SetSqref (dd : DataValidation) (sqref : String) : DataValidation :=
  if dd.Sqref = "" then { dd with Sqref := sqref }
  else { dd with Sqref := dd.Sqref ++ " " ++ sqref }

end Excelize

namespace Excelize

/-- A 256-byte single key used to exhibit an over-long drop-list formula. -/
def longListKey : String := String.mk (List.replicate 256 'a')

/-- A rule whose `Formula1` is already longer than the 257-byte limit. -/
def longFormulaRule : DataValidation :=
  { NewDataValidation true with Formula1 := String.mk (List.replicate 258 'a') }

end Excelize

open Excelize

/-- C7: for every rule and key list, `SetDropList` returns no error, sets
`Formula1` to the comma join of the keys enclosed in double quotes, and
sets `Type` to "list"; in particular keys ["1","2","3"] give the formula
`"1,2,3"` (quotes included). -/
theorem setDropList_spec (dd : DataValidation) (keys : List String) :
    (dd.SetDropList keys).2 = none ∧
    (dd.SetDropList keys).1.Formula1 = "\"" ++ String.intercalate "," keys ++ "\"" ∧
    (dd.SetDropList keys).1.«Type» = "list" ∧
    ((NewDataValidation true).SetDropList ["1", "2", "3"]).1.Formula1 = "\"1,2,3\"" := by
  refine ⟨rfl, rfl, rfl, rfl⟩

/-- C8: `SetSqref` sets `Sqref` to the given reference when it is empty and
otherwise appends it after a single space, leaving every other field
unchanged; two calls with "A1:B2" then "C3:D4" on a fresh rule give
"A1:B2 C3:D4". -/
theorem setSqref_spec (dd : DataValidation) (sqref : String) :
    dd.SetSqref sqref =
      { dd with Sqref := if dd.Sqref = "" then sqref else dd.Sqref ++ " " ++ sqref } ∧
    (((NewDataValidation true).SetSqref "A1:B2").SetSqref "C3:D4").Sqref = "A1:B2 C3:D4" := by
  constructor
  · unfold DataValidation.SetSqref
    split <;> simp_all
  · rfl

/-- C9: `SetError` enables the error alert, stores the message and title,
and maps the style to "stop"/"warning"/"information", with "stop" for any
unrecognized style value and no error reported. -/
theorem setError_spec (dd : DataValidation) (style : DataValidationErrorStyle)
    (title msg : String) :
    (dd.SetError style title msg).ShowErrorMessage = true ∧
    (dd.SetError style title msg).Error = some msg ∧
    (dd.SetError style title msg).ErrorTitle = some title ∧
    (dd.SetError style title msg).ErrorStyle =
      some (if style = DataValidationErrorStyleStop then "stop"
        else if style = DataValidationErrorStyleWarning then "warning"
        else if style = DataValidationErrorStyleInformation then "information"
        else "stop") := by
  refine ⟨rfl, rfl, rfl, ?_⟩
  unfold DataValidation.SetError styleStop styleWarning styleInformation
  split <;> simp_all

/-- C3 counterexample: a single 256-byte key makes `SetDropList` store a
258-byte formula — beyond the 255+2 limit — while reporting no error, so
the claimed length invariant is not maintained by the builder. -/
theorem dropList_breaks_length_invariant :
    ((NewDataValidation true).SetDropList [longListKey]).2 = none ∧
    dataValidationFormulaStrLen <
      ((NewDataValidation true).SetDropList [longListKey]).1.Formula1.utf8ByteSize := by
  constructor
  · rfl
  · show 257 < (("\"" ++ String.intercalate "," [longListKey] ++ "\"")).utf8ByteSize
    decide

/-- C3 (amended): the serialized formula length is NOT globally bounded —
`SetDropList` never errors whatever the resulting length; the only length
enforcement is in `SetRange`, which reports the length error exactly when
a prior `Formula1` or `Formula2` already exceeds 257 bytes. -/
theorem formula_length_enforcement (dd : DataValidation) (keys : List String)
    (f1 f2 : Int) (t : DataValidationType) (o : DataValidationOperator) :
    (dd.SetDropList keys).2 = none ∧
    ((dd.SetRange f1 f2 t o).2 = some dataValidationFormulaStrLenErr ↔
      dataValidationFormulaStrLen < dd.Formula1.utf8ByteSize ∨
        dataValidationFormulaStrLen < dd.Formula2.utf8ByteSize) := by
  constructor
  · rfl
  · unfold DataValidation.SetRange
    split <;> simp_all

/-- C4: `SetRange` fails (with the length error) exactly when the rule's
prior `Formula1` or `Formula2` is longer than 257 bytes, and on a fresh
rule `SetRange 10 20 Whole Between` sets `Formula1 = "10"`,
`Formula2 = "20"`, type "whole" and operator "between" with no error. -/
theorem setRange_spec (dd : DataValidation) (f1 f2 : Int)
    (t : DataValidationType) (o : DataValidationOperator) :
    ((dd.SetRange f1 f2 t o).2 = some dataValidationFormulaStrLenErr ↔
      257 < dd.Formula1.utf8ByteSize ∨ 257 < dd.Formula2.utf8ByteSize) ∧
    (NewDataValidation true).SetRange 10 20 DataValidationTypeWhole
        DataValidationOperatorBetween =
      ({ NewDataValidation true with
         Formula1 := "10", Formula2 := "20"
         «Type» := "whole", Operator := "between" }, none) := by
  constructor
  · unfold DataValidation.SetRange
    split <;> simp_all [dataValidationFormulaStrLen]
  · decide

/-- C10: when the length check fires, `SetRange` returns the rule
unchanged together with the error — no field assignment happens. -/
theorem setRange_error_leaves_rule_unchanged (dd : DataValidation) (f1 f2 : Int)
    (t : DataValidationType) (o : DataValidationOperator)
    (h : 257 < dd.Formula1.utf8ByteSize ∨ 257 < dd.Formula2.utf8ByteSize) :
    dd.SetRange f1 f2 t o = (dd, some dataValidationFormulaStrLenErr) := by
  unfold DataValidation.SetRange
  rw [if_pos]
  exact h

/-- Witness for C10 at a concrete over-long rule. -/
theorem setRange_error_leaves_rule_unchanged_witness :
    (257 < longFormulaRule.Formula1.utf8ByteSize ∨
      257 < longFormulaRule.Formula2.utf8ByteSize) ∧
    longFormulaRule.SetRange 10 20 DataValidationTypeWhole
        DataValidationOperatorBetween = (longFormulaRule, some dataValidationFormulaStrLenErr) :=
  ⟨Or.inl (by decide),
    setRange_error_leaves_rule_unchanged longFormulaRule 10 20 DataValidationTypeWhole
      DataValidationOperatorBetween (Or.inl (by decide))⟩

namespace Excelize

/-! ### Charts (chart.go) -/

/-- Go `ChartType` is a `byte`; the enumeration below follows the `iota`
block of chart.go (`Area = 0` … `Bubble3D = 54`).  Values outside the
enumeration are representable (any byte), which is what makes an
unsupported chart type possible. -/
abbrev ChartType := Nat

def Area : ChartType := 0
def AreaStacked : ChartType := 1
def AreaPercentStacked : ChartType := 2
def Area3D : ChartType := 3
def Area3DStacked : ChartType := 4
def Area3DPercentStacked : ChartType := 5
def Bar : ChartType := 6
def BarStacked : ChartType := 7
def BarPercentStacked : ChartType := 8
def Bar3DClustered : ChartType := 9
def Bar3DStacked : ChartType := 10
def Bar3DPercentStacked : ChartType := 11
def Bar3DConeClustered : ChartType := 12
def Bar3DConeStacked : ChartType := 13
def Bar3DConePercentStacked : ChartType := 14
def Bar3DPyramidClustered : ChartType := 15
def Bar3DPyramidStacked : ChartType := 16
def Bar3DPyramidPercentStacked : ChartType := 17
def Bar3DCylinderClustered : ChartType := 18
def Bar3DCylinderStacked : ChartType := 19
def Bar3DCylinderPercentStacked : ChartType := 20
def Col : ChartType := 21
def ColStacked : ChartType := 22
def ColPercentStacked : ChartType := 23
def Col3D : ChartType := 24
def Col3DClustered : ChartType := 25
def Col3DStacked : ChartType := 26
def Col3DPercentStacked : ChartType := 27
def Col3DCone : ChartType := 28
def Col3DConeClustered : ChartType := 29
def Col3DConeStacked : ChartType := 30
def Col3DConePercentStacked : ChartType := 31
def Col3DPyramid : ChartType := 32
def Col3DPyramidClustered : ChartType := 33
def Col3DPyramidStacked : ChartType := 34
def Col3DPyramidPercentStacked : ChartType := 35
def Col3DCylinder : ChartType := 36
def Col3DCylinderClustered : ChartType := 37
def Col3DCylinderStacked : ChartType := 38
def Col3DCylinderPercentStacked : ChartType := 39
def Doughnut : ChartType := 40
def Line : ChartType := 41
def Line3D : ChartType := 42
def Pie : ChartType := 43
def Pie3D : ChartType := 44
def PieOfPie : ChartType := 45
def BarOfPie : ChartType := 46
def Radar : ChartType := 47
def Scatter : ChartType := 48
def Surface3D : ChartType := 49
def WireframeSurface3D : ChartType := 50
def Contour : ChartType := 51
def WireframeContour : ChartType := 52
def Bubble : ChartType := 53
def Bubble3D : ChartType := 54

/-- `chartValAxNumFmtFormatCode`: the supported-type table.  Go map lookup
becomes `Option String`; the 55 keys are exactly the enumerated chart
types, listed in enumeration order. -/
def chartValAxNumFmtFormatCode : ChartType → Option String
  | 0 => some "General"   -- Area
  | 1 => some "General"   -- AreaStacked
  | 2 => some "0%"        -- AreaPercentStacked
  | 3 => some "General"   -- Area3D
  | 4 => some "General"   -- Area3DStacked
  | 5 => some "0%"        -- Area3DPercentStacked
  | 6 => some "General"   -- Bar
  | 7 => some "General"   -- BarStacked
  | 8 => some "0%"        -- BarPercentStacked
  | 9 => some "General"   -- Bar3DClustered
  | 10 => some "General"  -- Bar3DStacked
  | 11 => some "0%"       -- Bar3DPercentStacked
  | 12 => some "General"  -- Bar3DConeClustered
  | 13 => some "General"  -- Bar3DConeStacked
  | 14 => some "0%"       -- Bar3DConePercentStacked
  | 15 => some "General"  -- Bar3DPyramidClustered
  | 16 => some "General"  -- Bar3DPyramidStacked
  | 17 => some "0%"       -- Bar3DPyramidPercentStacked
  | 18 => some "General"  -- Bar3DCylinderClustered
  | 19 => some "General"  -- Bar3DCylinderStacked
  | 20 => some "0%"       -- Bar3DCylinderPercentStacked
  | 21 => some "General"  -- Col
  | 22 => some "General"  -- ColStacked
  | 23 => some "0%"       -- ColPercentStacked
  | 24 => some "General"  -- Col3D
  | 25 => some "General"  -- Col3DClustered
  | 26 => some "General"  -- Col3DStacked
  | 27 => some "0%"       -- Col3DPercentStacked
  | 28 => some "General"  -- Col3DCone
  | 29 => some "General"  -- Col3DConeClustered
  | 30 => some "General"  -- Col3DConeStacked
  | 31 => some "0%"       -- Col3DConePercentStacked
  | 32 => some "General"  -- Col3DPyramid
  | 33 => some "General"  -- Col3DPyramidClustered
  | 34 => some "General"  -- Col3DPyramidStacked
  | 35 => some "0%"       -- Col3DPyramidPercentStacked
  | 36 => some "General"  -- Col3DCylinder
  | 37 => some "General"  -- Col3DCylinderClustered
  | 38 => some "General"  -- Col3DCylinderStacked
  | 39 => some "0%"       -- Col3DCylinderPercentStacked
  | 40 => some "General"  -- Doughnut
  | 41 => some "General"  -- Line
  | 42 => some "General"  -- Line3D
  | 43 => some "General"  -- Pie
  | 44 => some "General"  -- Pie3D
  | 45 => some "General"  -- PieOfPie
  | 46 => some "General"  -- BarOfPie
  | 47 => some "General"  -- Radar
  | 48 => some "General"  -- Scatter
  | 49 => some "General"  -- Surface3D
  | 50 => some "General"  -- WireframeSurface3D
  | 51 => some "General"  -- Contour
  | 52 => some "General"  -- WireframeContour
  | 53 => some "General"  -- Bubble
  | 54 => some "General"  -- Bubble3D
  | _ => none

end Excelize

namespace Excelize

/-- Modelled from the spec: the default-value constants
(`defaultChartDimensionWidth` etc.) live outside the excerpt; §4.1 fixes
them as width 480, height 260, picture scale 1.0, legend position
"bottom", blanks shown as "gap". -/
def defaultChartDimensionWidth : Nat := 480

def defaultChartDimensionHeight : Nat := 260

def defaultPictureScale : ℚ := 1

def defaultChartLegendPosition : String := "bottom"

def defaultChartShowBlanksAs : String := "gap"

/-- Modelled from the spec: of the `Font` struct (declared outside the
excerpt) only the colour and size fields are read or written by the
chart-title defaulting (§4.1).  Go `float64` sizes are embedded as `ℚ`:
the code only compares them with zero and assigns literals. -/
structure Font where
  Color : String
  Size : ℚ
deriving DecidableEq, Repr

/-- Modelled from the spec: a chart-title rich-text run (§3) — text plus
an optional font (Go `*Font`). -/
structure RichTextRun where
  Text : String
  Font : Option Font
deriving DecidableEq, Repr

/-- Modelled from the spec: chart dimension (§3), Go unsigned ints. -/
structure ChartDimension where
  Width : Nat
  Height : Nat
deriving DecidableEq, Repr

/-- Modelled from the spec: the graphic options read or written by the
chart defaulting (§3 "format (offsets, scale, print/lock flags)"). -/
structure GraphicOptions where
  PrintObject : Option Bool
  Locked : Option Bool
  LockAspectRatio : Bool
  OffsetX : Int
  OffsetY : Int
  ScaleX : ℚ
  ScaleY : ℚ
deriving DecidableEq, Repr

/-- Modelled from the spec: chart legend (§3) — position keyword and
show-key flag. -/
structure ChartLegend where
  Position : String
  ShowLegendKey : Bool
deriving DecidableEq, Repr

/-- Modelled from the spec: the `Chart` configuration struct is declared
outside the excerpt; the fields here are those chart.go reads or writes
(type, dimension, format, legend, title runs, vary-colors,
blanks-as).  Series and axis options are never touched by the excerpt's
defaulting or validation and are omitted. -/
structure Chart where
  «Type» : ChartType
  Dimension : ChartDimension
  Format : GraphicOptions
  Legend : ChartLegend
  Title : List RichTextRun
  VaryColors : Option Bool
  ShowBlanksAs : String
deriving DecidableEq, Repr

/-- Errors surfaced by the chart subsystem: `ErrParameterInvalid`,
`newUnsupportedChartType` (which records the offending type) and the
sheet-resolution failure of the worksheet reader. -/
inductive ChartErr where
  | parameterInvalid
  | unsupportedChartType (t : ChartType)
  | sheetNotFound (sheet : String)
deriving DecidableEq, Repr

/-- The title-run body of `parseChartOptions`'s loop: a nil font becomes
the empty `&Font{}`, then empty colour and zero size get their defaults. -/
def parseTitleRun (r : RichTextRun) : RichTextRun :=
  let f : Font := match r.Font with
    | none => { Color := "", Size := 0 }
    | some f => f
  let f := { f with Color := if f.Color = "" then "595959" else f.Color }
  let f := { f with Size := if f.Size = 0 then 14 else f.Size }
  { r with Font := some f }

/-- The field defaulting of `parseChartOptions` on a non-nil chart: every
zero-valued optional field receives its default. -/
def parseChartOptionsCore (c : Chart) : Chart :=
  { c with
    Dimension :=
      { Width := if c.Dimension.Width = 0 then defaultChartDimensionWidth
          else c.Dimension.Width
        Height := if c.Dimension.Height = 0 then defaultChartDimensionHeight
          else c.Dimension.Height }
    Format :=
      { c.Format with
        PrintObject := match c.Format.PrintObject with
          | none => some true
          | some b => some b
        Locked := match c.Format.Locked with
          | none => some false
          | some b => some b
        ScaleX := if c.Format.ScaleX = 0 then defaultPictureScale else c.Format.ScaleX
        ScaleY := if c.Format.ScaleY = 0 then defaultPictureScale else c.Format.ScaleY }
    Legend :=
      { c.Legend with
        Position := if c.Legend.Position = "" then defaultChartLegendPosition
          else c.Legend.Position }
    Title := c.Title.map parseTitleRun
    VaryColors := match c.VaryColors with
      | none => some true
      | some b => some b
    ShowBlanksAs := if c.ShowBlanksAs = "" then defaultChartShowBlanksAs
      else c.ShowBlanksAs }

/-- `parseChartOptions`: nil charts are `ErrParameterInvalid`, otherwise
the defaults are filled in. -/
def parseChartOptions (opts : Option Chart) : Except ChartErr Chart :=
  match opts with
  | none => .error .parameterInvalid
  | some c => .ok (parseChartOptionsCore c)

/-- The combo loop of `getChartOptions`: each secondary chart is parsed
(defaulted), its type checked against the supported-type table, and
appended; the first failure aborts the loop. -/
def parseComboCharts : List (Option Chart) → Except ChartErr (List Chart)
  | [] => .ok []
  | comboFormat :: rest =>
    match parseChartOptions comboFormat with
    | .error e => .error e
    | .ok comboChart =>
      if (chartValAxNumFmtFormatCode comboChart.Type).isSome then
        match parseComboCharts rest with
        | .error e => .error e
        | .ok tail => .ok (comboChart :: tail)
      else .error (.unsupportedChartType comboChart.Type)

/-- `getChartOptions`: parse the primary chart, then run the combo loop,
and only then check the primary chart's type against the supported-type
table — exactly the statement order of the source. -/
def getChartOptions (opts : Option Chart) (combo : List (Option Chart)) :
    Except ChartErr (Chart × List Chart) :=
  match parseChartOptions opts with
  | .error e => .error e
  | .ok options =>
    match parseComboCharts combo with
    | .error e => .error e
    | .ok comboCharts =>
      if (chartValAxNumFmtFormatCode options.Type).isSome then
        .ok (options, comboCharts)
      else .error (.unsupportedChartType options.Type)

/-- A `Chart` at its Go zero value (`Type` is `Area = 0`). -/
def zeroChart : Chart :=
  { «Type» := 0
    Dimension := { Width := 0, Height := 0 }
    Format :=
      { PrintObject := none, Locked := none, LockAspectRatio := false
        OffsetX := 0, OffsetY := 0, ScaleX := 0, ScaleY := 0 }
    Legend := { Position := "", ShowLegendKey := false }
    Title := []
    VaryColors := none
    ShowBlanksAs := "" }

/-- A zero-valued chart with the given type. -/
def chartOfType (t : ChartType) : Chart := { zeroChart with «Type» := t }

end Excelize

namespace Excelize

/-- Defaulting a title run twice changes nothing beyond the first pass. -/
lemma parseTitleRun_idem (r : RichTextRun) :
    parseTitleRun (parseTitleRun r) = parseTitleRun r := by
  unfold parseTitleRun
  cases r.Font <;> simp
  all_goals split_ifs <;> simp_all

/-- The defaulting pass never changes the chart type. -/
lemma parseChartOptionsCore_type (c : Chart) :
    (parseChartOptionsCore c).«Type» = c.«Type» := rfl

end Excelize

namespace Excelize

/-- Filling a zero-valued field with a non-zero default is idempotent. -/
lemma fillDefault_idem {α : Type} [DecidableEq α] (z d v : α) (hd : ¬ d = z) :
    (if (if v = z then d else v) = z then d else (if v = z then d else v)) =
      (if v = z then d else v) := by
  split_ifs <;> simp_all

/-- Filling a nil optional boolean is idempotent. -/
lemma fillOptionBool_idem (o : Option Bool) (b : Bool) :
    (match (match o with | none => some b | some x => some x) with
      | none => some b | some x => some x) =
      (match o with | none => some b | some x => some x) := by
  cases o <;> rfl

/-- Defaulting every title run twice equals defaulting once. -/
lemma mapTitle_idem (l : List RichTextRun) :
    (l.map parseTitleRun).map parseTitleRun = l.map parseTitleRun := by
  induction l with
  | nil => rfl
  | cons r l ih => simp [parseTitleRun_idem, ih]

end Excelize

/-- C5: on a non-null configuration `parseChartOptions` succeeds with the
defaulted configuration, and the defaulting is idempotent — a second pass
changes nothing, because each default only fills a zero-valued field
(width 480, height 260, print-object enabled, not locked, scale 1, legend
position bottom, title font colour 595959 and size 14, vary-colors true,
blanks as gap). -/
theorem parseChartOptions_idempotent (c : Excelize.Chart) :
    Excelize.parseChartOptions (some c) =
      Except.ok (Excelize.parseChartOptionsCore c) ∧
    Excelize.parseChartOptionsCore (Excelize.parseChartOptionsCore c) =
      Excelize.parseChartOptionsCore c := by
  refine ⟨rfl, ?_⟩
  obtain ⟨t, ⟨w, hgt⟩, ⟨po, lk, lar, ox, oy, sx, sy⟩, ⟨pos, slk⟩, title, vc, sba⟩ := c
  dsimp only [Excelize.parseChartOptionsCore]
  rw [Excelize.fillDefault_idem 0 Excelize.defaultChartDimensionWidth w (by decide),
    Excelize.fillDefault_idem 0 Excelize.defaultChartDimensionHeight hgt (by decide),
    Excelize.fillDefault_idem 0 Excelize.defaultPictureScale sx (by decide),
    Excelize.fillDefault_idem 0 Excelize.defaultPictureScale sy (by decide),
    Excelize.fillDefault_idem "" Excelize.defaultChartLegendPosition pos (by decide),
    Excelize.fillDefault_idem "" Excelize.defaultChartShowBlanksAs sba (by decide),
    Excelize.fillOptionBool_idem po true, Excelize.fillOptionBool_idem lk false,
    Excelize.fillOptionBool_idem vc true, Excelize.mapTitle_idem]

/-- C1: with no combo charts, `getChartOptions` on a non-null
configuration succeeds (with the defaulted chart) exactly when the chart
type is a key of `chartValAxNumFmtFormatCode`, and otherwise fails with
the unsupported-chart-type error naming that type. -/
theorem getChartOptions_type_membership (c : Excelize.Chart) :
    Excelize.getChartOptions (some c) [] =
      (match Excelize.chartValAxNumFmtFormatCode c.«Type» with
        | some _ => Except.ok (Excelize.parseChartOptionsCore c, [])
        | none => Except.error (Excelize.ChartErr.unsupportedChartType c.«Type»)) := by
  unfold Excelize.getChartOptions Excelize.parseChartOptions Excelize.parseComboCharts
  cases h : Excelize.chartValAxNumFmtFormatCode c.«Type» <;>
    simp [Excelize.parseChartOptionsCore_type, h]

namespace Excelize

/-- The combo loop on non-null combo charts: the first combo whose type is
not in the supported table aborts with its type; otherwise every combo is
defaulted in order. -/
lemma parseComboCharts_map_some (cs : List Chart) :
    parseComboCharts (cs.map some) =
      (match cs.find? (fun cc => (chartValAxNumFmtFormatCode cc.«Type»).isNone) with
        | some bad => Except.error (ChartErr.unsupportedChartType bad.«Type»)
        | none => Except.ok (cs.map parseChartOptionsCore)) := by
  induction cs with
  | nil => rfl
  | cons c cs ih =>
    unfold parseComboCharts parseChartOptions
    simp only [List.map_cons, List.find?_cons]
    cases h : chartValAxNumFmtFormatCode c.«Type» with
    | none => simp [parseChartOptionsCore_type, h]
    | some v =>
      cases hf : cs.find? (fun cc => (chartValAxNumFmtFormatCode cc.«Type»).isNone) with
      | none => simp_all [parseChartOptionsCore_type, h, hf]
      | some bad => simp_all [parseChartOptionsCore_type, h, hf]

end Excelize

/-- C2 counterexample: with an unsupported primary type (55) and an
unsupported combo type (56), `getChartOptions` reports the *combo's* type
— the primary chart is not validated before the combo charts are
processed, contrary to the claim. -/
theorem getChartOptions_primary_not_validated_first :
    Excelize.getChartOptions (some (Excelize.chartOfType 55))
        [some (Excelize.chartOfType 56)] =
      Except.error (Excelize.ChartErr.unsupportedChartType 56) ∧
    Excelize.getChartOptions (some (Excelize.chartOfType 55))
        [some (Excelize.chartOfType 56)] ≠
      Except.error (Excelize.ChartErr.unsupportedChartType 55) := by
  have h1 : Excelize.getChartOptions (some (Excelize.chartOfType 55))
      [some (Excelize.chartOfType 56)] =
      Except.error (Excelize.ChartErr.unsupportedChartType 56) := rfl
  refine ⟨h1, ?_⟩
  rw [h1]
  simp

/-- C2 (amended): the primary chart is defaulted before the combo loop,
each combo chart is defaulted independently and checked against the
supported-type table in order, and the primary's type is checked only
after every combo: the first unsupported *combo* type fails the operation
with an error naming it, and an unsupported primary type is reported only
when all combo types are supported. -/
theorem getChartOptions_combo_order (c : Excelize.Chart) (cs : List Excelize.Chart) :
    Excelize.getChartOptions (some c) (cs.map some) =
      (match cs.find? (fun cc => (Excelize.chartValAxNumFmtFormatCode cc.«Type»).isNone) with
        | some bad => Except.error (Excelize.ChartErr.unsupportedChartType bad.«Type»)
        | none =>
          match Excelize.chartValAxNumFmtFormatCode c.«Type» with
          | none => Except.error (Excelize.ChartErr.unsupportedChartType c.«Type»)
          | some _ =>
            Except.ok (Excelize.parseChartOptionsCore c,
              cs.map Excelize.parseChartOptionsCore)) := by
  unfold Excelize.getChartOptions Excelize.parseChartOptions
  rw [Excelize.parseComboCharts_map_some]
  cases hf : cs.find? (fun cc => (Excelize.chartValAxNumFmtFormatCode cc.«Type»).isNone) with
  | some bad => simp
  | none =>
    cases h : Excelize.chartValAxNumFmtFormatCode c.«Type» <;>
      simp [Excelize.parseChartOptionsCore_type, h]

namespace Excelize

/-- Bytewise substring containment, Go `strings.Contains`. -/
def strContains (s pat : String) : Bool := decide (pat.data <:+: s.data)

/-- Modelled from the spec: the in-memory document (§3 "Package part
registry", §6).  `Pkg` is the path-keyed part store, `sheetMap` the
sheet-name-to-path map, `Rels` the relationship registrations and
`ContentTypes` the content-type registrations consumed as black boxes by
the chart assembly. -/
structure File where
  sheetMap : List (String × String)
  Pkg : List (String × String)
  Rels : List (String × String)
  ContentTypes : List (Nat × String)
deriving DecidableEq, Repr

/-- Modelled from the spec: the worksheet reader resolves a sheet name to
its worksheet and "fails on unknown sheet" (§6). -/
def File.workSheetReader (f : File) (sheet : String) : Except ChartErr Unit :=
  if (f.sheetMap.lookup sheet).isSome then .ok ()
  else .error (.sheetNotFound sheet)

/-- `countCharts` scans every package part path for "xl/charts/chart". -/
def File.countCharts (f : File) : Nat :=
  (f.Pkg.filter (fun kv => strContains kv.1 "xl/charts/chart")).length

/-- Modelled from the spec: `countDrawings` is the drawings-part analogue
of `countCharts` ("enumeration-by-prefix", §6). -/
def File.countDrawings (f : File) : Nat :=
  (f.Pkg.filter (fun kv => strContains kv.1 "xl/drawings/drawing")).length

/-- `AddChart`: resolve the worksheet, default and validate the charts,
then allocate part IDs and register the drawing part, chart part,
relationship and content types.  The collaborators `prepareDrawing`,
`addRels`, `addDrawingChart`, `addChart` and `addContentTypePart` live
outside the excerpt and are modelled from the spec (§4.3, §6) as registry
insertions; the chart XML itself is out of scope.  The updated document
is returned alongside the error, mirroring Go's in-place mutation. -/
def File.AddChart (f : File) (sheet cell : String) (chart : Option Chart)
    (combo : List (Option Chart)) : File × Option ChartErr :=
  match f.workSheetReader sheet with
  | .error e => (f, some e)
  | .ok _ =>
    match getChartOptions chart combo with
    | .error e => (f, some e)
    | .ok (_opts, _comboCharts) =>
      let drawingID := f.countDrawings + 1
      let chartID := f.countCharts + 1
      let drawingXML := "xl/drawings/drawing" ++ toString drawingID ++ ".xml"
      let drawingRels := "xl/drawings/_rels/drawing" ++ toString drawingID ++ ".xml.rels"
      let chartXML := "xl/charts/chart" ++ toString chartID ++ ".xml"
      let f := { f with
        Rels := f.Rels ++ [(drawingRels, "../charts/chart" ++ toString chartID ++ ".xml")] }
      let f := { f with Pkg := f.Pkg ++ [(drawingXML, cell), (chartXML, "")] }
      let f := { f with
        ContentTypes := f.ContentTypes ++ [(chartID, "chart"), (drawingID, "drawings")] }
      (f, none)

/-- A document with no sheets and an empty part registry. -/
def emptyFile : File := { sheetMap := [], Pkg := [], Rels := [], ContentTypes := [] }

end Excelize

/-- C6: when the sheet name does not resolve, `AddChart` returns the
sheet-resolution error and the document — part registry, relationships
and content types included — is unchanged. -/
theorem addChart_unknown_sheet (f : Excelize.File) (sheet cell : String)
    (chart : Option Excelize.Chart) (combo : List (Option Excelize.Chart))
    (h : f.sheetMap.lookup sheet = none) :
    f.AddChart sheet cell chart combo =
      (f, some (Excelize.ChartErr.sheetNotFound sheet)) := by
  unfold Excelize.File.AddChart Excelize.File.workSheetReader
  simp [h]

/-- Witness for C6 on the empty document. -/
theorem addChart_unknown_sheet_witness :
    Excelize.emptyFile.sheetMap.lookup "Sheet1" = none ∧
    Excelize.emptyFile.AddChart "Sheet1" "E1" (some Excelize.zeroChart) [] =
      (Excelize.emptyFile, some (Excelize.ChartErr.sheetNotFound "Sheet1")) :=
  ⟨rfl, addChart_unknown_sheet Excelize.emptyFile "Sheet1" "E1"
    (some Excelize.zeroChart) [] rfl⟩
